import Mathlib

/-!
Verification of the car-wash bay occupancy backend.

Shallow embedding of `backend/bay_tracker.py` (the occupancy hysteresis
state machine) and `backend/simple_stream_processor.py` (stream connection
lifecycle: exponential backoff and the quality-degradation ladder),
with configuration defaults from `backend/config.py`.

Modelling conventions:
- timestamps (`datetime.now()` values) are integers counting seconds;
  `timedelta.total_seconds()` becomes integer subtraction;
- detection confidences and backoff delays (Python floats) are rationals;
- the per-bay dictionaries become a `Bay` structure, and the tracker's
  `self.bays` dict becomes a partial map `Nat → Option Bay`;
- each Python method becomes a pure function from the pre-state (plus the
  method's inputs and the current time) to the post-state.
-/

/-- `BayStatus` enum from `bay_tracker.py`. -/
inductive BayStatus where
  | AVAILABLE
  | IN_USE
  | OUT_OF_SERVICE
  | CONNECTION_ERROR
deriving DecidableEq, Repr

/-- `StatusConfig` dataclass from `config.py` (defaults as in the source).
`customer_connection_timeout` is carried but unused by the tracker. -/
structure StatusConfig where
  available_to_inuse_threshold : Nat := 2
  inuse_to_available_threshold : Nat := 8
  connection_grace_period : Int := 10
  frame_timeout : Int := 30
  customer_connection_timeout : Int := 60
deriving Repr

/-- The per-bay state dictionary created in `BayTracker.__init__`. -/
structure Bay where
  status : BayStatus
  last_updated : Int
  consecutive_detections : Nat
  consecutive_non_detections : Nat
  last_frame_time : Option Int
  detection_confidence : Rat
  is_connected : Bool
  last_connection_time : Option Int
  last_disconnection_time : Option Int
  connection_recovery_pending : Bool
deriving DecidableEq, Repr

/-- Initial per-bay state (`BayTracker.__init__`, lines 46-57). -/
def initBay (now : Int) : Bay :=
  { status := .AVAILABLE
    last_updated := now
    consecutive_detections := 0
    consecutive_non_detections := 0
    last_frame_time := none
    detection_confidence := 0
    is_connected := false
    last_connection_time := none
    last_disconnection_time := none
    connection_recovery_pending := false }

/-- Lines 78-100 of `update_bay_status`: record the connection flag, the
provided frame time and confidence, and the connection-transition
bookkeeping (false→true sets `last_connection_time`/`recovery_pending`,
true→false sets `last_disconnection_time` and clears the pending flag). -/
def apply_inputs (b : Bay) (now : Int) (is_connected : Bool)
    (last_frame_time : Option Int) (detection_confidence : Rat) : Bay :=
  let was_connected := b.is_connected
  let b := { b with is_connected := is_connected }
  let b := match last_frame_time with
    | some t => { b with last_frame_time := some t }
    | none => b
  let b := { b with detection_confidence := detection_confidence }
  if is_connected && !was_connected then
    { b with last_connection_time := some now, connection_recovery_pending := true }
  else if !is_connected && was_connected then
    { b with last_disconnection_time := some now, connection_recovery_pending := false }
  else b

/-- The frame time the timeout check at lines 111-113 sees: the provided
one if any, otherwise the stored one. -/
def effective_frame_time (b : Bay) (last_frame_time : Option Int) : Option Int :=
  match last_frame_time with
  | some t => some t
  | none => b.last_frame_time

/-- Lines 111-113: a frame time is recorded and is older than `frame_timeout`. -/
def frame_timed_out (cfg : StatusConfig) (b : Bay) (now : Int) : Bool :=
  match b.last_frame_time with
  | some t => decide (cfg.frame_timeout < now - t)
  | none => false

/-- Lines 104-107 / 114-117: force `CONNECTION_ERROR` (touching
`last_updated` only on an actual change). -/
def mark_connection_error (b : Bay) (now : Int) : Bay :=
  if b.status = .CONNECTION_ERROR then b
  else { b with status := .CONNECTION_ERROR, last_updated := now }

/-- Lines 145-179: detection-counter update, asymmetric hysteresis and the
final status application. `current_status`/`new_status` are the local
variables of the Python code at the point line 145 is reached. -/
def apply_detection (cfg : StatusConfig) (b : Bay) (now : Int) (detected : Bool)
    (current_status new_status : BayStatus) : Bay :=
  let b :=
    if detected then
      { b with consecutive_detections := b.consecutive_detections + 1
               consecutive_non_detections := 0 }
    else
      { b with consecutive_detections := 0
               consecutive_non_detections := b.consecutive_non_detections + 1 }
  let new_status :=
    if current_status = .AVAILABLE ∧
        cfg.available_to_inuse_threshold ≤ b.consecutive_detections then
      BayStatus.IN_USE
    else if current_status = .IN_USE ∧
        cfg.inuse_to_available_threshold ≤ b.consecutive_non_detections then
      BayStatus.AVAILABLE
    else new_status
  if new_status ≠ current_status then
    { b with status := new_status, last_updated := now }
  else b

/-- Lines 120-179: the connection-is-good part of `update_bay_status`:
auto-recovery from `CONNECTION_ERROR` after the grace period (lines
124-134), the grace-period early return (lines 136-143), then counters
and hysteresis. -/
def detection_phase (cfg : StatusConfig) (b : Bay) (now : Int) (detected : Bool) : Bay :=
  let current_status := b.status
  let p :=
    if current_status = .CONNECTION_ERROR then
      match b.last_connection_time with
      | some lct =>
        if cfg.connection_grace_period ≤ now - lct then
          (BayStatus.AVAILABLE,
           { b with consecutive_detections := 0
                    consecutive_non_detections := 0
                    connection_recovery_pending := false })
        else (current_status, b)
      | none => (current_status, b)
    else (current_status, b)
  let new_status := p.1
  let b := p.2
  match b.connection_recovery_pending, b.last_connection_time with
  | true, some lct =>
    if now - lct < cfg.connection_grace_period then b
    else
      apply_detection cfg { b with connection_recovery_pending := false }
        now detected current_status new_status
  | _, _ => apply_detection cfg b now detected current_status new_status

/-- `BayTracker.update_bay_status` (lines 65-179) acting on one bay's state.
Argument order follows the Python signature. -/
def Bay.update_bay_status (cfg : StatusConfig) (b : Bay) (now : Int)
    (vehicle_detected is_connected : Bool) (last_frame_time : Option Int)
    (detection_confidence : Rat) : Bay :=
  let b := apply_inputs b now is_connected last_frame_time detection_confidence
  if !is_connected then mark_connection_error b now
  else if frame_timed_out cfg b now then mark_connection_error b now
  else detection_phase cfg b now vehicle_detected

/-- `BayTracker.set_bay_out_of_service` (lines 227-238) acting on one bay. -/
def Bay.set_out_of_service (b : Bay) (now : Int) (out_of_service : Bool) : Bay :=
  let b :=
    if out_of_service then { b with status := .OUT_OF_SERVICE }
    else
      { b with status := .AVAILABLE
               consecutive_detections := 0
               consecutive_non_detections := 0 }
  { b with last_updated := now }

/-- The `BayTracker` object: the configuration fields copied in
`__init__` plus the `self.bays` registry. -/
structure BayTracker where
  bay_count : Nat
  config : StatusConfig
  bays : Nat → Option Bay

/-- `BayTracker.__init__`: bays `1..bay_count` are created `AVAILABLE`
and disconnected. -/
def BayTracker.init (cfg : StatusConfig) (bay_count : Nat) (now : Int) : BayTracker :=
  { bay_count := bay_count
    config := cfg
    bays := fun bay_id =>
      if 1 ≤ bay_id ∧ bay_id ≤ bay_count then some (initBay now) else none }

/-- `BayTracker.update_bay_status`: an unknown bay id is rejected (logged,
early return) with no mutation; otherwise the bay's entry is replaced. -/
def BayTracker.update_bay_status (t : BayTracker) (bay_id : Nat) (now : Int)
    (vehicle_detected is_connected : Bool) (last_frame_time : Option Int)
    (detection_confidence : Rat) : BayTracker :=
  match t.bays bay_id with
  | none => t
  | some b =>
    let b' := Bay.update_bay_status t.config b now vehicle_detected is_connected
      last_frame_time detection_confidence
    { t with bays := Function.update t.bays bay_id (some b') }

/-- `BayTracker.set_bay_out_of_service`: same rejection of unknown ids. -/
def BayTracker.set_bay_out_of_service (t : BayTracker) (bay_id : Nat) (now : Int)
    (out_of_service : Bool) : BayTracker :=
  match t.bays bay_id with
  | none => t
  | some b =>
    let b' := b.set_out_of_service now out_of_service
    { t with bays := Function.update t.bays bay_id (some b') }

/-- One input record for a call to `update_bay_status` (used to state
properties of call sequences). -/
structure UpdIn where
  now : Int
  vehicle_detected : Bool
  is_connected : Bool
  last_frame_time : Option Int
  detection_confidence : Rat
deriving Repr

/-- Feed a sequence of update calls to one bay, oldest first. -/
def feedList (cfg : StatusConfig) (b : Bay) (L : List UpdIn) : Bay :=
  L.foldl (fun b u =>
    Bay.update_bay_status cfg b u.now u.vehicle_detected u.is_connected
      u.last_frame_time u.detection_confidence) b

/-- Feed `n` identical update calls (fixed detection flag, connected, no
frame time) to one bay. -/
def feedRepeat (cfg : StatusConfig) (b : Bay) (detected : Bool)
    (now : Int) (conf : Rat) : Nat → Bay
  | 0 => b
  | n + 1 => Bay.update_bay_status cfg (feedRepeat cfg b detected now conf n)
      now detected true none conf

/-- No recorded frame time is stale at `now` (negation of the timeout test
at line 113). -/
def no_frame_timeout (cfg : StatusConfig) (t? : Option Int) (now : Int) : Prop :=
  ∀ t, t? = some t → now - t ≤ cfg.frame_timeout


/-! ### Stream processor (`simple_stream_processor.py`) -/

/-- The `quality_level` field values `'high' | 'medium' | 'low'`. -/
inductive QualityLevel where
  | high
  | medium
  | low
deriving DecidableEq, Repr

/-- Number of remaining downgrade steps: `high` = 2, `medium` = 1, `low` = 0.
Used to state that the quality ladder is one-way. -/
def qualityRank : QualityLevel → Nat
  | .high => 2
  | .medium => 1
  | .low => 0

/-- Outcome of one attempt to open the stream and read the probe frame
(the try-block of `connect`): success, or an exception with its message. -/
inductive ConnectResult where
  | success
  | failure (msg : String)
deriving DecidableEq, Repr

/-- `SimpleRTSPStreamProcessor` state relevant to the connection lifecycle:
the configuration copied from `config.rtsp` in `__init__` plus the mutable
stream/quality/performance fields. `base_reconnect_interval` and
`max_reconnect_interval` are integers in `config.py`; they are embedded as
rationals because `_calculate_backoff_delay` mixes them into float
arithmetic. -/
structure SimpleRTSPStreamProcessor where
  max_reconnect_attempts : Nat
  base_reconnect_interval : Rat
  max_reconnect_interval : Rat
  is_connected : Bool
  reconnect_attempts : Nat
  consecutive_failures : Nat
  total_reconnects : Nat
  quality_level : QualityLevel
  last_error : Option String
  frames_processed : Nat
  frames_failed : Nat
  last_frame_time : Option Int
  last_successful_connection : Option Int
  connection_start_time : Option Int
  average_fps : Rat
deriving DecidableEq, Repr

/-- Processor state right after `__init__` (RTSP config defaults from
`config.py`: 10 attempts, base 2s, max 60s). -/
def initProcessor : SimpleRTSPStreamProcessor :=
  { max_reconnect_attempts := 10
    base_reconnect_interval := 2
    max_reconnect_interval := 60
    is_connected := false
    reconnect_attempts := 0
    consecutive_failures := 0
    total_reconnects := 0
    quality_level := .high
    last_error := none
    frames_processed := 0
    frames_failed := 0
    last_frame_time := none
    last_successful_connection := none
    connection_start_time := none
    average_fps := 0 }

/-- `_degrade_quality` (lines 75-84): one step down the ladder, floor at
`low`. -/
def degrade_quality : QualityLevel → QualityLevel
  | .high => .medium
  | .medium => .low
  | .low => .low

/-- `connect` (lines 86-148). The transport interaction (opening the
capture and reading the probe frame) is abstracted into the `res` input;
the state bookkeeping follows the source: success resets
`consecutive_failures` and records the connection time, failure increments
`consecutive_failures` and degrades quality (resetting the counter) once
it reaches 3. Returns the new state and the method's boolean result. -/
def connect (s : SimpleRTSPStreamProcessor) (res : ConnectResult) (now : Int) :
    SimpleRTSPStreamProcessor × Bool :=
  let s := { s with connection_start_time := some now }
  match res with
  | .success =>
    ({ s with is_connected := true
              last_successful_connection := some now
              consecutive_failures := 0
              last_error := none }, true)
  | .failure msg =>
    let s := { s with is_connected := false
                      consecutive_failures := s.consecutive_failures + 1
                      last_error := some msg }
    if 3 ≤ s.consecutive_failures then
      ({ s with quality_level := degrade_quality s.quality_level
                consecutive_failures := 0 }, false)
    else (s, false)

/-- `disconnect` (lines 150-157): release the capture, drop the flag. -/
def disconnect (s : SimpleRTSPStreamProcessor) : SimpleRTSPStreamProcessor :=
  { s with is_connected := false }

/-- `_calculate_backoff_delay` (lines 159-169). `r` stands for the
pseudo-random value `time.time() % 1`, a real in `[0, 1)`. -/
def calculate_backoff_delay (s : SimpleRTSPStreamProcessor) (r : Rat) : Rat :=
  let delay := s.base_reconnect_interval * 2 ^ min s.reconnect_attempts 6
  let delay := min delay s.max_reconnect_interval
  let jitter := delay * (1 / 4) * (r - 1 / 2)
  max 1 (delay + jitter)

/-- Lines 197-201 of `reconnect`: on success, reset the attempt counter. -/
def reconnect_finish (c : SimpleRTSPStreamProcessor × Bool) :
    SimpleRTSPStreamProcessor × Bool :=
  if c.2 then ({ c.1 with reconnect_attempts := 0 }, true) else c

/-- Lines 176-201 of `reconnect`, after the attempt counters were bumped:
give up past the attempt cap, otherwise disconnect if needed, try
`connect`, and reset the attempt counter on success. (The backoff sleep
itself has no state effect.) -/
def reconnect_attempt (s : SimpleRTSPStreamProcessor) (res : ConnectResult)
    (now : Int) : SimpleRTSPStreamProcessor × Bool :=
  if s.max_reconnect_attempts < s.reconnect_attempts then (s, false)
  else
    reconnect_finish
      (connect (if s.is_connected then disconnect s else s) res now)

/-- `reconnect` (lines 171-201): bump the attempt counters, then run the
guarded reconnection attempt. -/
def reconnect (s : SimpleRTSPStreamProcessor) (res : ConnectResult) (now : Int) :
    SimpleRTSPStreamProcessor × Bool :=
  reconnect_attempt
    { s with reconnect_attempts := s.reconnect_attempts + 1
             total_reconnects := s.total_reconnects + 1 } res now

/-- `_update_performance_metrics` (lines 247-256). -/
def update_performance_metrics (s : SimpleRTSPStreamProcessor) (now : Int) :
    SimpleRTSPStreamProcessor :=
  match s.last_successful_connection with
  | some t =>
    if 0 < now - t then
      { s with average_fps := (s.frames_processed : Rat) / ((now - t : Int) : Rat) }
    else s
  | none => s

/-- Lines 223-230 of `get_frame`: count and timestamp a successful read,
refreshing the FPS metric every 100th frame. -/
def get_frame_success (s : SimpleRTSPStreamProcessor) (now : Int) :
    SimpleRTSPStreamProcessor :=
  if s.frames_processed % 100 = 0 then update_performance_metrics s now else s

/-- `get_frame` (lines 203-245): the transport read is abstracted into the
`ok` input (false covers both a failed `cap.read` and an exception). -/
def get_frame (s : SimpleRTSPStreamProcessor) (ok : Bool) (now : Int) :
    SimpleRTSPStreamProcessor × Bool :=
  if !s.is_connected then (s, false)
  else if !ok then ({ s with frames_failed := s.frames_failed + 1 }, false)
  else
    (get_frame_success
      { s with frames_processed := s.frames_processed + 1
               last_frame_time := some now } now, true)

/-- One connection-lifecycle operation, for stating properties of whole
operation sequences. -/
inductive StreamOp where
  | connectOp (res : ConnectResult) (now : Int)
  | reconnectOp (res : ConnectResult) (now : Int)
  | getFrameOp (ok : Bool) (now : Int)

/-- Apply one operation (dropping the returned boolean). -/
def runOp (s : SimpleRTSPStreamProcessor) : StreamOp → SimpleRTSPStreamProcessor
  | .connectOp res now => (connect s res now).1
  | .reconnectOp res now => (reconnect s res now).1
  | .getFrameOp ok now => (get_frame s ok now).1

/-- Apply a sequence of operations, oldest first. -/
def runOps (s : SimpleRTSPStreamProcessor) (ops : List StreamOp) :
    SimpleRTSPStreamProcessor :=
  ops.foldl runOp s

/-! ### Basic lemmas about the update pipeline -/

theorem mark_connection_error_status (b : Bay) (now : Int) :
    (mark_connection_error b now).status = .CONNECTION_ERROR := by
  unfold mark_connection_error
  split
  · assumption
  · rfl

theorem mark_connection_error_fields (b : Bay) (now : Int) :
    (mark_connection_error b now).consecutive_detections = b.consecutive_detections ∧
    (mark_connection_error b now).consecutive_non_detections = b.consecutive_non_detections ∧
    (mark_connection_error b now).is_connected = b.is_connected ∧
    (mark_connection_error b now).connection_recovery_pending = b.connection_recovery_pending ∧
    (mark_connection_error b now).last_connection_time = b.last_connection_time ∧
    (mark_connection_error b now).last_frame_time = b.last_frame_time := by
  unfold mark_connection_error
  split <;> simp

/-- `apply_inputs` when the connection was and stays up: only the frame
time and confidence fields change. -/
theorem apply_inputs_stay_connected (b : Bay) (now : Int)
    (lft : Option Int) (conf : Rat) (hconn : b.is_connected = true) :
    apply_inputs b now true lft conf =
      { b with last_frame_time := effective_frame_time b lft
               detection_confidence := conf } := by
  unfold apply_inputs effective_frame_time
  cases lft <;> simp [hconn]

/-- `apply_inputs` on a false→true connection transition. -/
theorem apply_inputs_reconnect (b : Bay) (now : Int)
    (lft : Option Int) (conf : Rat) (hconn : b.is_connected = false) :
    apply_inputs b now true lft conf =
      { b with is_connected := true
               last_frame_time := effective_frame_time b lft
               detection_confidence := conf
               last_connection_time := some now
               connection_recovery_pending := true } := by
  unfold apply_inputs effective_frame_time
  cases lft <;> simp [hconn]

/-! ### C1 -/

/-- **C1.** For every bay and every call to the tracker's update operation,
if the `isConnected` input is `false` then immediately afterwards the bay's
status is `CONNECTION_ERROR`, regardless of the detection counters and of
the status before the call. -/
theorem C1_disconnected_forces_connection_error (cfg : StatusConfig) (b : Bay)
    (now : Int) (vehicle_detected : Bool) (last_frame_time : Option Int)
    (detection_confidence : Rat) :
    (Bay.update_bay_status cfg b now vehicle_detected false last_frame_time
      detection_confidence).status = .CONNECTION_ERROR := by
  unfold Bay.update_bay_status
  simp [mark_connection_error_status]

/-- One update call on a healthy, non-recovering bay (connected before and
after, no frame times in play, not in `CONNECTION_ERROR`) reduces to the
counter/hysteresis step. -/
theorem update_healthy (cfg : StatusConfig) (b : Bay) (now : Int)
    (detected : Bool) (conf : Rat)
    (hconn : b.is_connected = true) (hpend : b.connection_recovery_pending = false)
    (hlft : b.last_frame_time = none) (hstat : b.status ≠ .CONNECTION_ERROR) :
    Bay.update_bay_status cfg b now detected true none conf =
      apply_detection cfg { b with detection_confidence := conf } now detected
        b.status b.status := by
  unfold Bay.update_bay_status
  rw [apply_inputs_stay_connected b now none conf hconn]
  unfold effective_frame_time frame_timed_out detection_phase
  simp [hlft, hpend, hstat]

/-- Counter/hysteresis step from `AVAILABLE` with a detection: the detection
counter advances and the fast transition fires exactly when it reaches the
`available_to_inuse_threshold`. -/
theorem apply_detection_available_true (cfg : StatusConfig) (b : Bay) (now : Int)
    (hstat : b.status = .AVAILABLE) :
    apply_detection cfg b now true .AVAILABLE .AVAILABLE =
      if cfg.available_to_inuse_threshold ≤ b.consecutive_detections + 1 then
        { b with consecutive_detections := b.consecutive_detections + 1
                 consecutive_non_detections := 0
                 status := .IN_USE
                 last_updated := now }
      else
        { b with consecutive_detections := b.consecutive_detections + 1
                 consecutive_non_detections := 0 } := by
  unfold apply_detection
  split <;> simp_all

/-- Counter/hysteresis step from `IN_USE` with a non-detection: the
non-detection counter advances and the slow transition fires exactly when
it reaches the `inuse_to_available_threshold`. -/
theorem apply_detection_inuse_false (cfg : StatusConfig) (b : Bay) (now : Int)
    (hstat : b.status = .IN_USE) :
    apply_detection cfg b now false .IN_USE .IN_USE =
      if cfg.inuse_to_available_threshold ≤ b.consecutive_non_detections + 1 then
        { b with consecutive_detections := 0
                 consecutive_non_detections := b.consecutive_non_detections + 1
                 status := .AVAILABLE
                 last_updated := now }
      else
        { b with consecutive_detections := 0
                 consecutive_non_detections := b.consecutive_non_detections + 1 } := by
  unfold apply_detection
  split <;> simp_all

/-- Invariant along a run of sub-threshold detections from `AVAILABLE`. -/
theorem feedRepeat_true_invariant (cfg : StatusConfig) (b : Bay) (now : Int)
    (conf : Rat)
    (hconn : b.is_connected = true) (hpend : b.connection_recovery_pending = false)
    (hlft : b.last_frame_time = none) (hstat : b.status = .AVAILABLE)
    (hcd : b.consecutive_detections = 0) :
    ∀ k, k < cfg.available_to_inuse_threshold →
      (feedRepeat cfg b true now conf k).status = .AVAILABLE ∧
      (feedRepeat cfg b true now conf k).consecutive_detections = k ∧
      (feedRepeat cfg b true now conf k).is_connected = true ∧
      (feedRepeat cfg b true now conf k).connection_recovery_pending = false ∧
      (feedRepeat cfg b true now conf k).last_frame_time = none := by
  intro k
  induction k with
  | zero => intro _; exact ⟨hstat, hcd, hconn, hpend, hlft⟩
  | succ k ih =>
    intro hk
    obtain ⟨h1, h2, h3, h4, h5⟩ := ih (Nat.lt_of_succ_lt hk)
    simp only [feedRepeat]
    rw [update_healthy cfg _ now true conf h3 h4 h5 (by rw [h1]; intro h; cases h)]
    rw [h1]
    rw [apply_detection_available_true cfg _ now (by simp [h1])]
    have hnot : ¬ cfg.available_to_inuse_threshold ≤
        (feedRepeat cfg b true now conf k).consecutive_detections + 1 := by
      rw [h2]; omega
    simp only [if_neg hnot]
    simp [h1, h2, h3, h4, h5]

/-- Invariant along a run of sub-threshold non-detections from `IN_USE`. -/
theorem feedRepeat_false_invariant (cfg : StatusConfig) (b : Bay) (now : Int)
    (conf : Rat)
    (hconn : b.is_connected = true) (hpend : b.connection_recovery_pending = false)
    (hlft : b.last_frame_time = none) (hstat : b.status = .IN_USE)
    (hcnd : b.consecutive_non_detections = 0) :
    ∀ k, k < cfg.inuse_to_available_threshold →
      (feedRepeat cfg b false now conf k).status = .IN_USE ∧
      (feedRepeat cfg b false now conf k).consecutive_non_detections = k ∧
      (feedRepeat cfg b false now conf k).is_connected = true ∧
      (feedRepeat cfg b false now conf k).connection_recovery_pending = false ∧
      (feedRepeat cfg b false now conf k).last_frame_time = none := by
  intro k
  induction k with
  | zero => intro _; exact ⟨hstat, hcnd, hconn, hpend, hlft⟩
  | succ k ih =>
    intro hk
    obtain ⟨h1, h2, h3, h4, h5⟩ := ih (Nat.lt_of_succ_lt hk)
    simp only [feedRepeat]
    rw [update_healthy cfg _ now false conf h3 h4 h5 (by rw [h1]; intro h; cases h)]
    rw [h1]
    rw [apply_detection_inuse_false cfg _ now (by simp [h1])]
    have hnot : ¬ cfg.inuse_to_available_threshold ≤
        (feedRepeat cfg b false now conf k).consecutive_non_detections + 1 := by
      rw [h2]; omega
    simp only [if_neg hnot]
    simp [h1, h2, h3, h4, h5]

/-- **C2.** Asymmetric hysteresis. From `AVAILABLE` with a healthy connection,
no pending recovery and fresh counters, exactly `available_to_inuse_threshold`
consecutive detected updates yield `IN_USE` while one fewer leaves
`AVAILABLE`; from `IN_USE`, exactly `inuse_to_available_threshold`
consecutive non-detected updates yield `AVAILABLE` while any smaller number
leaves `IN_USE`. -/
theorem C2_asymmetric_hysteresis (cfg : StatusConfig) (bA bI : Bay)
    (now : Int) (conf : Rat)
    (hfast : 0 < cfg.available_to_inuse_threshold)
    (hslow : 0 < cfg.inuse_to_available_threshold)
    (hAconn : bA.is_connected = true) (hApend : bA.connection_recovery_pending = false)
    (hAlft : bA.last_frame_time = none) (hAstat : bA.status = .AVAILABLE)
    (hAcd : bA.consecutive_detections = 0)
    (hIconn : bI.is_connected = true) (hIpend : bI.connection_recovery_pending = false)
    (hIlft : bI.last_frame_time = none) (hIstat : bI.status = .IN_USE)
    (hIcnd : bI.consecutive_non_detections = 0) :
    (feedRepeat cfg bA true now conf cfg.available_to_inuse_threshold).status
        = .IN_USE ∧
    (feedRepeat cfg bA true now conf
        (cfg.available_to_inuse_threshold - 1)).status = .AVAILABLE ∧
    (feedRepeat cfg bI false now conf cfg.inuse_to_available_threshold).status
        = .AVAILABLE ∧
    ∀ k, k < cfg.inuse_to_available_threshold →
      (feedRepeat cfg bI false now conf k).status = .IN_USE := by
  refine ⟨?_, ?_, ?_, ?_⟩
  · obtain ⟨n, hn⟩ := Nat.exists_eq_succ_of_ne_zero (Nat.pos_iff_ne_zero.mp hfast)
    obtain ⟨h1, h2, h3, h4, h5⟩ :=
      feedRepeat_true_invariant cfg bA now conf hAconn hApend hAlft hAstat hAcd n
        (by omega)
    rw [hn]
    simp only [feedRepeat]
    rw [update_healthy cfg _ now true conf h3 h4 h5 (by rw [h1]; intro h; cases h)]
    rw [h1]
    rw [apply_detection_available_true cfg _ now (by simp [h1])]
    have hyes : cfg.available_to_inuse_threshold ≤
        (feedRepeat cfg bA true now conf n).consecutive_detections + 1 := by
      rw [h2]; omega
    simp [if_pos hyes]
  · exact (feedRepeat_true_invariant cfg bA now conf hAconn hApend hAlft hAstat hAcd
      (cfg.available_to_inuse_threshold - 1) (by omega)).1
  · obtain ⟨n, hn⟩ := Nat.exists_eq_succ_of_ne_zero (Nat.pos_iff_ne_zero.mp hslow)
    obtain ⟨h1, h2, h3, h4, h5⟩ :=
      feedRepeat_false_invariant cfg bI now conf hIconn hIpend hIlft hIstat hIcnd n
        (by omega)
    rw [hn]
    simp only [feedRepeat]
    rw [update_healthy cfg _ now false conf h3 h4 h5 (by rw [h1]; intro h; cases h)]
    rw [h1]
    rw [apply_detection_inuse_false cfg _ now (by simp [h1])]
    have hyes : cfg.inuse_to_available_threshold ≤
        (feedRepeat cfg bI false now conf n).consecutive_non_detections + 1 := by
      rw [h2]; omega
    simp [if_pos hyes]
  · intro k hk
    exact (feedRepeat_false_invariant cfg bI now conf hIconn hIpend hIlft hIstat hIcnd
      k hk).1

/-- Witness for C2 at the configuration defaults (thresholds 2 and 8), on a
freshly created, connected bay. -/
theorem C2_witness :
    0 < ({} : StatusConfig).available_to_inuse_threshold ∧
    0 < ({} : StatusConfig).inuse_to_available_threshold ∧
    ((feedRepeat {} { initBay 0 with is_connected := true } true 0 0
        ({} : StatusConfig).available_to_inuse_threshold).status = .IN_USE ∧
      (feedRepeat {} { initBay 0 with is_connected := true } true 0 0
        (({} : StatusConfig).available_to_inuse_threshold - 1)).status = .AVAILABLE ∧
      (feedRepeat {} { initBay 0 with is_connected := true, status := .IN_USE }
        false 0 0 ({} : StatusConfig).inuse_to_available_threshold).status
          = .AVAILABLE ∧
      ∀ k, k < ({} : StatusConfig).inuse_to_available_threshold →
        (feedRepeat {} { initBay 0 with is_connected := true, status := .IN_USE }
          false 0 0 k).status = .IN_USE) :=
  ⟨by decide, by decide,
    C2_asymmetric_hysteresis {} { initBay 0 with is_connected := true }
      { initBay 0 with is_connected := true, status := .IN_USE } 0 0
      (by decide) (by decide) rfl rfl rfl rfl rfl rfl rfl rfl rfl rfl⟩

/-- While the pending flag is set and the grace period has not elapsed,
the detection phase returns the bay unchanged (lines 136-141). -/
theorem detection_phase_in_grace (cfg : StatusConfig) (b : Bay) (now : Int)
    (detected : Bool) (l : Int)
    (hpend : b.connection_recovery_pending = true)
    (hlct : b.last_connection_time = some l)
    (hgrace : now - l < cfg.connection_grace_period) :
    detection_phase cfg b now detected = b := by
  unfold detection_phase
  have hnot : ¬ cfg.connection_grace_period ≤ now - l := by omega
  by_cases hs : b.status = BayStatus.CONNECTION_ERROR <;>
    simp [hs, hlct, hnot, hpend, hgrace]

/-- During the recovery grace period (pending flag set, connection up, less
than `connection_grace_period` since `last_connection_time`), an update
call leaves the detection counters, the pending flag, the connection flag
and the connection time untouched, whatever its other inputs. -/
theorem update_freeze_counters (cfg : StatusConfig) (b : Bay) (now : Int)
    (detected : Bool) (lft : Option Int) (conf : Rat) (l : Int)
    (hpend : b.connection_recovery_pending = true)
    (hconn : b.is_connected = true)
    (hlct : b.last_connection_time = some l)
    (hgrace : now - l < cfg.connection_grace_period) :
    (Bay.update_bay_status cfg b now detected true lft conf).consecutive_detections
        = b.consecutive_detections ∧
    (Bay.update_bay_status cfg b now detected true lft conf).consecutive_non_detections
        = b.consecutive_non_detections ∧
    (Bay.update_bay_status cfg b now detected true lft conf).connection_recovery_pending
        = true ∧
    (Bay.update_bay_status cfg b now detected true lft conf).is_connected = true ∧
    (Bay.update_bay_status cfg b now detected true lft conf).last_connection_time
        = some l := by
  unfold Bay.update_bay_status
  rw [apply_inputs_stay_connected b now lft conf hconn]
  by_cases ht : frame_timed_out cfg
      { b with last_frame_time := effective_frame_time b lft
               detection_confidence := conf } now
  · simp only [Bool.not_true, Bool.false_eq_true, if_false, ht, if_true]
    have hf := mark_connection_error_fields
      { b with last_frame_time := effective_frame_time b lft
               detection_confidence := conf } now
    simp_all
  · simp only [Bool.not_true, Bool.false_eq_true, if_false, ht]
    rw [detection_phase_in_grace cfg _ now detected l (by simpa using hpend)
      (by simpa using hlct) hgrace]
    simp_all

/-- Special case of the grace-period freeze where no frame times are in
play: the update only records the confidence. -/
theorem update_freeze_none (cfg : StatusConfig) (b : Bay) (now : Int)
    (detected : Bool) (conf : Rat) (l : Int)
    (hpend : b.connection_recovery_pending = true)
    (hconn : b.is_connected = true)
    (hlct : b.last_connection_time = some l)
    (hgrace : now - l < cfg.connection_grace_period)
    (hlft : b.last_frame_time = none) :
    Bay.update_bay_status cfg b now detected true none conf =
      { b with detection_confidence := conf } := by
  unfold Bay.update_bay_status
  rw [apply_inputs_stay_connected b now none conf hconn]
  have heff : effective_frame_time b none = none := by
    unfold effective_frame_time; exact hlft
  rw [heff]
  have ht : frame_timed_out cfg
      { b with last_frame_time := none, detection_confidence := conf } now = false := by
    unfold frame_timed_out; rfl
  simp only [Bool.not_true, Bool.false_eq_true, if_false, ht]
  rw [detection_phase_in_grace cfg _ now detected l (by simpa using hpend)
    (by simpa using hlct) hgrace]
  simp [hlft]

/-- The grace-period freeze propagated along a whole sequence of connected
update calls that all land strictly inside the grace window. -/
theorem feedList_freeze (cfg : StatusConfig) (l : Int) :
    ∀ (L : List UpdIn) (b : Bay),
      b.connection_recovery_pending = true →
      b.is_connected = true →
      b.last_connection_time = some l →
      (∀ u ∈ L, u.is_connected = true ∧
        u.now - l < cfg.connection_grace_period) →
      (feedList cfg b L).consecutive_detections = b.consecutive_detections ∧
      (feedList cfg b L).consecutive_non_detections = b.consecutive_non_detections ∧
      (feedList cfg b L).connection_recovery_pending = true ∧
      (feedList cfg b L).is_connected = true ∧
      (feedList cfg b L).last_connection_time = some l := by
  intro L
  induction L with
  | nil => intro b hpend hconn hlct _; exact ⟨rfl, rfl, hpend, hconn, hlct⟩
  | cons u L ih =>
    intro b hpend hconn hlct hL
    have hu := hL u (by simp)
    have hL' := fun v (hv : v ∈ L) => hL v (List.mem_cons_of_mem u hv)
    have hstep := update_freeze_counters cfg b u.now u.vehicle_detected
      u.last_frame_time u.detection_confidence l hpend hconn hlct hu.2
    have hfeed : feedList cfg b (u :: L) =
        feedList cfg (Bay.update_bay_status cfg b u.now u.vehicle_detected true
          u.last_frame_time u.detection_confidence) L := by
      unfold feedList
      rw [List.foldl_cons, hu.1]
    rw [hfeed]
    obtain ⟨s1, s2, s3, s4, s5⟩ := hstep
    obtain ⟨r1, r2, r3, r4, r5⟩ := ih _ s3 s4 s5 hL'
    exact ⟨by rw [r1, s1], by rw [r2, s2], r3, r4, r5⟩

/-- Freeze along a sequence of connected in-window calls that carry no
frame times: everything except the recorded confidence is preserved. -/
theorem feedList_freeze_none (cfg : StatusConfig) (l : Int) :
    ∀ (L : List UpdIn) (b : Bay),
      b.connection_recovery_pending = true →
      b.is_connected = true →
      b.last_connection_time = some l →
      b.last_frame_time = none →
      (∀ u ∈ L, u.is_connected = true ∧
        u.now - l < cfg.connection_grace_period ∧ u.last_frame_time = none) →
      (feedList cfg b L).status = b.status ∧
      (feedList cfg b L).consecutive_detections = b.consecutive_detections ∧
      (feedList cfg b L).consecutive_non_detections = b.consecutive_non_detections ∧
      (feedList cfg b L).connection_recovery_pending = true ∧
      (feedList cfg b L).is_connected = true ∧
      (feedList cfg b L).last_connection_time = some l ∧
      (feedList cfg b L).last_frame_time = none := by
  intro L
  induction L with
  | nil => intro b hpend hconn hlct hlft _
           exact ⟨rfl, rfl, rfl, hpend, hconn, hlct, hlft⟩
  | cons u L ih =>
    intro b hpend hconn hlct hlft hL
    have hu := hL u (by simp)
    have hL' := fun v (hv : v ∈ L) => hL v (List.mem_cons_of_mem u hv)
    have hfeed : feedList cfg b (u :: L) =
        feedList cfg (Bay.update_bay_status cfg b u.now u.vehicle_detected true
          none u.detection_confidence) L := by
      unfold feedList
      rw [List.foldl_cons, hu.1, hu.2.2]
    rw [hfeed]
    rw [update_freeze_none cfg b u.now u.vehicle_detected u.detection_confidence l
      hpend hconn hlct hu.2.1 hlft]
    have := ih { b with detection_confidence := u.detection_confidence }
      (by simpa using hpend) (by simpa using hconn) (by simpa using hlct)
      (by simpa using hlft) hL'
    simpa using this

/-! ### C5 -/

/-- **C5.** Grace-period freeze: for a bay whose `isConnected` just went
false→true (pending flag set, `last_connection_time = l`), every sequence
of subsequent connected update calls made strictly within
`connection_grace_period` seconds of `l` leaves both detection counters
unchanged, even if every call reports `detected = true`. -/
theorem C5_grace_period_freeze (cfg : StatusConfig) (b : Bay) (l : Int)
    (L : List UpdIn)
    (hpend : b.connection_recovery_pending = true)
    (hconn : b.is_connected = true)
    (hlct : b.last_connection_time = some l)
    (hL : ∀ u ∈ L, u.is_connected = true ∧
      u.now - l < cfg.connection_grace_period) :
    (feedList cfg b L).consecutive_detections = b.consecutive_detections ∧
    (feedList cfg b L).consecutive_non_detections
      = b.consecutive_non_detections := by
  obtain ⟨h1, h2, _, _, _⟩ := feedList_freeze cfg l L b hpend hconn hlct hL
  exact ⟨h1, h2⟩

/-- Witness for C5: a bay that just reconnected at time 0, fed two
detected updates at times 1 and 2 (grace period 10). -/
theorem C5_witness :
    (feedList {}
      { initBay 0 with is_connected := true, connection_recovery_pending := true,
                       last_connection_time := some 0 }
      [⟨1, true, true, none, 0⟩, ⟨2, true, true, none, 0⟩]).consecutive_detections
        = 0 ∧
    (feedList {}
      { initBay 0 with is_connected := true, connection_recovery_pending := true,
                       last_connection_time := some 0 }
      [⟨1, true, true, none, 0⟩, ⟨2, true, true, none, 0⟩]).consecutive_non_detections
        = 0 :=
  C5_grace_period_freeze {}
    { initBay 0 with is_connected := true, connection_recovery_pending := true,
                     last_connection_time := some 0 }
    0 [⟨1, true, true, none, 0⟩, ⟨2, true, true, none, 0⟩]
    rfl rfl rfl (by decide)

/-- The very first update call with `isConnected = true` on a freshly
created bay counts as a false→true transition: it sets the pending flag
and `last_connection_time` and changes nothing else except the recorded
confidence (the grace-period early return is taken when the grace period
is positive). -/
theorem update_first_connect (cfg : StatusConfig) (t_init t0 : Int)
    (d0 : Bool) (c0 : Rat) (hg : 0 < cfg.connection_grace_period) :
    Bay.update_bay_status cfg (initBay t_init) t0 d0 true none c0 =
      { initBay t_init with is_connected := true
                            detection_confidence := c0
                            last_connection_time := some t0
                            connection_recovery_pending := true } := by
  unfold Bay.update_bay_status
  rw [apply_inputs_reconnect (initBay t_init) t0 none c0 rfl]
  have heff : effective_frame_time (initBay t_init) none = none := rfl
  rw [heff]
  have ht : frame_timed_out cfg
      { initBay t_init with is_connected := true
                            last_frame_time := none
                            detection_confidence := c0
                            last_connection_time := some t0
                            connection_recovery_pending := true } t0 = false := by
    unfold frame_timed_out; rfl
  simp only [Bool.not_true, Bool.false_eq_true, if_false, ht]
  rw [detection_phase_in_grace cfg _ t0 d0 t0 rfl rfl (by omega)]
  simp [initBay]

/-! ### C10 -/

/-- **C10.** Startup edge case: a bay is created disconnected, so its very
first connected update call is treated as a false→true transition — it sets
the pending-recovery flag and `last_connection_time` while the status stays
`AVAILABLE` — and every further connected update within the first
`connection_grace_period` seconds leaves both detection counters at 0 and
the status `AVAILABLE`, even though the bay was never in
`CONNECTION_ERROR`. -/
theorem C10_startup_grace (cfg : StatusConfig) (t_init t0 : Int)
    (d0 : Bool) (c0 : Rat) (b1 : Bay) (L : List UpdIn)
    (hg : 0 < cfg.connection_grace_period)
    (hb1 : b1 = Bay.update_bay_status cfg (initBay t_init) t0 d0 true none c0)
    (hL : ∀ u ∈ L, u.is_connected = true ∧
      u.now - t0 < cfg.connection_grace_period ∧ u.last_frame_time = none) :
    (b1.connection_recovery_pending = true ∧
     b1.last_connection_time = some t0 ∧
     b1.status = .AVAILABLE ∧
     b1.consecutive_detections = 0 ∧
     b1.consecutive_non_detections = 0) ∧
    ((feedList cfg b1 L).consecutive_detections = 0 ∧
     (feedList cfg b1 L).consecutive_non_detections = 0 ∧
     (feedList cfg b1 L).status = .AVAILABLE) := by
  subst hb1
  rw [update_first_connect cfg t_init t0 d0 c0 hg]
  refine ⟨⟨rfl, rfl, rfl, rfl, rfl⟩, ?_⟩
  obtain ⟨h1, h2, h3, _, _, _, _⟩ := feedList_freeze_none cfg t0 L
    { initBay t_init with is_connected := true
                          detection_confidence := c0
                          last_connection_time := some t0
                          connection_recovery_pending := true }
    rfl rfl rfl rfl hL
  exact ⟨h2, h3, h1⟩

/-- Witness for C10: default config, first connected update at time 0,
one further detected update at time 3 (inside the 10s grace window). -/
theorem C10_witness :
    0 < ({} : StatusConfig).connection_grace_period ∧
    (((Bay.update_bay_status {} (initBay 0) 0 true true none
        0).connection_recovery_pending = true ∧
      (Bay.update_bay_status {} (initBay 0) 0 true true none
        0).last_connection_time = some 0 ∧
      (Bay.update_bay_status {} (initBay 0) 0 true true none 0).status
        = .AVAILABLE ∧
      (Bay.update_bay_status {} (initBay 0) 0 true true none
        0).consecutive_detections = 0 ∧
      (Bay.update_bay_status {} (initBay 0) 0 true true none
        0).consecutive_non_detections = 0) ∧
     ((feedList {} (Bay.update_bay_status {} (initBay 0) 0 true true none 0)
        [⟨3, true, true, none, 0⟩]).consecutive_detections = 0 ∧
      (feedList {} (Bay.update_bay_status {} (initBay 0) 0 true true none 0)
        [⟨3, true, true, none, 0⟩]).consecutive_non_detections = 0 ∧
      (feedList {} (Bay.update_bay_status {} (initBay 0) 0 true true none 0)
        [⟨3, true, true, none, 0⟩]).status = .AVAILABLE)) :=
  ⟨by decide,
    C10_startup_grace {} 0 0 true 0
      (Bay.update_bay_status {} (initBay 0) 0 true true none 0)
      [⟨3, true, true, none, 0⟩] (by decide) rfl (by decide)⟩

/-- The counter/hysteresis step never changes the status when the incoming
`current_status`/`new_status` pair is `OUT_OF_SERVICE`: neither hysteresis
transition applies. -/
theorem apply_detection_oos (cfg : StatusConfig) (b : Bay) (now : Int)
    (detected : Bool) :
    (apply_detection cfg b now detected .OUT_OF_SERVICE .OUT_OF_SERVICE).status
      = b.status := by
  unfold apply_detection
  cases detected <;> simp

/-- A bay whose effective frame time is fresh does not trip the frame
timeout. -/
theorem frame_timed_out_false (cfg : StatusConfig) (b' : Bay) (now : Int)
    (t? : Option Int) (hb : b'.last_frame_time = t?)
    (h : no_frame_timeout cfg t? now) :
    frame_timed_out cfg b' now = false := by
  unfold frame_timed_out
  rw [hb]
  cases t? with
  | none => rfl
  | some t =>
    have := h t rfl
    simp
    omega

/-- An `OUT_OF_SERVICE` bay stays `OUT_OF_SERVICE` under any connected
update that does not trip the frame timeout. -/
theorem update_connected_keeps_oos (cfg : StatusConfig) (b : Bay) (now : Int)
    (detected : Bool) (lft : Option Int) (conf : Rat)
    (hstat : b.status = .OUT_OF_SERVICE)
    (hnt : no_frame_timeout cfg (effective_frame_time b lft) now) :
    (Bay.update_bay_status cfg b now detected true lft conf).status
      = .OUT_OF_SERVICE := by
  unfold Bay.update_bay_status
  cases hc : b.is_connected
  · rw [apply_inputs_reconnect b now lft conf hc]
    have ht : frame_timed_out cfg
        { b with is_connected := true
                 last_frame_time := effective_frame_time b lft
                 detection_confidence := conf
                 last_connection_time := some now
                 connection_recovery_pending := true } now = false :=
      frame_timed_out_false cfg _ now _ rfl hnt
    simp only [Bool.not_true, Bool.false_eq_true, if_false, ht]
    unfold detection_phase
    simp only [hstat]
    split
    · split <;> simp [apply_detection_oos]
    · simp [apply_detection_oos]
  · rw [apply_inputs_stay_connected b now lft conf hc]
    have ht : frame_timed_out cfg
        { b with last_frame_time := effective_frame_time b lft
                 detection_confidence := conf } now = false :=
      frame_timed_out_false cfg _ now _ rfl hnt
    simp only [Bool.not_true, Bool.false_eq_true, if_false, ht]
    unfold detection_phase
    simp only [hstat]
    rcases hp : b.connection_recovery_pending <;>
      rcases hl : b.last_connection_time with _ | l <;>
        simp [hstat, hp, hl, apply_detection_oos] <;> split <;>
          simp [hstat, apply_detection_oos]

/-! ### C3 -/

/-- **C3, counterexample.** `OUT_OF_SERVICE` is *not* sticky against every
update input: an update with `isConnected = false` moves an out-of-service
bay (default config, set out of service by the operator at time 0) to
`CONNECTION_ERROR`. -/
theorem C3_counterexample :
    ¬ (Bay.update_bay_status {} (Bay.set_out_of_service (initBay 0) 0 true)
        1 true false none 0).status = .OUT_OF_SERVICE := by
  decide

/-- **C3, amended.** A bay in `OUT_OF_SERVICE` keeps that status across
every update whose `isConnected` input is `true` and whose effective frame
time has not exceeded the frame timeout, regardless of the detection and
confidence inputs; an update with `isConnected = false` instead moves it to
`CONNECTION_ERROR`; and the explicit operator call
`setOutOfService(false)` moves the bay to `AVAILABLE` and resets both
counters to zero. -/
theorem C3_amended (cfg : StatusConfig) (b : Bay) (now : Int)
    (detected : Bool) (lft : Option Int) (conf : Rat)
    (hstat : b.status = .OUT_OF_SERVICE)
    (hnt : no_frame_timeout cfg (effective_frame_time b lft) now) :
    (Bay.update_bay_status cfg b now detected true lft conf).status
        = .OUT_OF_SERVICE ∧
    (Bay.update_bay_status cfg b now detected false lft conf).status
        = .CONNECTION_ERROR ∧
    ((b.set_out_of_service now false).status = .AVAILABLE ∧
     (b.set_out_of_service now false).consecutive_detections = 0 ∧
     (b.set_out_of_service now false).consecutive_non_detections = 0) := by
  refine ⟨update_connected_keeps_oos cfg b now detected lft conf hstat hnt,
    ?_, ?_, ?_, ?_⟩
  · unfold Bay.update_bay_status
    simp [mark_connection_error_status]
  · unfold Bay.set_out_of_service; simp
  · unfold Bay.set_out_of_service; simp
  · unfold Bay.set_out_of_service; simp

/-- Witness for C3 (amended): the operator takes bay state out of service
at time 0; a detected, connected update at time 1 leaves it
`OUT_OF_SERVICE`. -/
theorem C3_witness :
    (Bay.update_bay_status {} (Bay.set_out_of_service (initBay 0) 0 true)
        1 true true none 0).status = .OUT_OF_SERVICE ∧
    (Bay.update_bay_status {} (Bay.set_out_of_service (initBay 0) 0 true)
        1 true false none 0).status = .CONNECTION_ERROR ∧
    (((Bay.set_out_of_service (initBay 0) 0 true).set_out_of_service 1 false).status
        = .AVAILABLE ∧
     ((Bay.set_out_of_service (initBay 0) 0 true).set_out_of_service 1
        false).consecutive_detections = 0 ∧
     ((Bay.set_out_of_service (initBay 0) 0 true).set_out_of_service 1
        false).consecutive_non_detections = 0) :=
  C3_amended {} (Bay.set_out_of_service (initBay 0) 0 true) 1 true none 0
    (by decide) (fun t ht => by cases ht)

/-- Counter/hysteresis step entered from `CONNECTION_ERROR` with the
auto-recovery target `AVAILABLE`: neither hysteresis guard applies, the
status becomes `AVAILABLE` and the counters advance once from wherever
they stand. -/
theorem apply_detection_recover (cfg : StatusConfig) (b : Bay) (now : Int)
    (detected : Bool) :
    (apply_detection cfg b now detected .CONNECTION_ERROR .AVAILABLE).status
        = .AVAILABLE ∧
    (apply_detection cfg b now detected .CONNECTION_ERROR
        .AVAILABLE).consecutive_detections
        = (if detected then b.consecutive_detections + 1 else 0) ∧
    (apply_detection cfg b now detected .CONNECTION_ERROR
        .AVAILABLE).consecutive_non_detections
        = (if detected then 0 else b.consecutive_non_detections + 1) ∧
    (apply_detection cfg b now detected .CONNECTION_ERROR
        .AVAILABLE).connection_recovery_pending
        = b.connection_recovery_pending := by
  unfold apply_detection
  cases detected <;> simp

/-- A bay in `CONNECTION_ERROR` that reconnected less than the grace
period ago stays in `CONNECTION_ERROR` under a connected update. -/
theorem update_in_grace_keeps_ce (cfg : StatusConfig) (b : Bay) (now : Int)
    (detected : Bool) (lft : Option Int) (conf : Rat) (l : Int)
    (hstat : b.status = .CONNECTION_ERROR)
    (hpend : b.connection_recovery_pending = true)
    (hconn : b.is_connected = true)
    (hlct : b.last_connection_time = some l)
    (hgrace : now - l < cfg.connection_grace_period) :
    (Bay.update_bay_status cfg b now detected true lft conf).status
      = .CONNECTION_ERROR := by
  unfold Bay.update_bay_status
  rw [apply_inputs_stay_connected b now lft conf hconn]
  by_cases ht : frame_timed_out cfg
      { b with last_frame_time := effective_frame_time b lft
               detection_confidence := conf } now
  · simp only [Bool.not_true, Bool.false_eq_true, if_false, ht, if_true]
    exact mark_connection_error_status _ now
  · simp only [Bool.not_true, Bool.false_eq_true, if_false, ht]
    rw [detection_phase_in_grace cfg _ now detected l (by simpa using hpend)
      (by simpa using hlct) hgrace]
    simpa using hstat

/-- Auto-recovery (lines 124-134 followed by 145-179): once the grace
period has elapsed, a connected, frame-fresh update moves a
`CONNECTION_ERROR` bay to `AVAILABLE`, clears the pending flag, resets the
counters and then advances the counter matching this call's detection
flag. -/
theorem update_recovers (cfg : StatusConfig) (b : Bay) (now : Int)
    (detected : Bool) (lft : Option Int) (conf : Rat) (l : Int)
    (hstat : b.status = .CONNECTION_ERROR)
    (hconn : b.is_connected = true)
    (hlct : b.last_connection_time = some l)
    (hg : cfg.connection_grace_period ≤ now - l)
    (hnt : no_frame_timeout cfg (effective_frame_time b lft) now) :
    (Bay.update_bay_status cfg b now detected true lft conf).status
        = .AVAILABLE ∧
    (Bay.update_bay_status cfg b now detected true lft
        conf).connection_recovery_pending = false ∧
    (Bay.update_bay_status cfg b now detected true lft
        conf).consecutive_detections = (if detected then 1 else 0) ∧
    (Bay.update_bay_status cfg b now detected true lft
        conf).consecutive_non_detections = (if detected then 0 else 1) := by
  unfold Bay.update_bay_status
  rw [apply_inputs_stay_connected b now lft conf hconn]
  have ht : frame_timed_out cfg
      { b with last_frame_time := effective_frame_time b lft
               detection_confidence := conf } now = false :=
    frame_timed_out_false cfg _ now _ rfl hnt
  simp only [Bool.not_true, Bool.false_eq_true, if_false, ht]
  unfold detection_phase
  simp only [hstat, hlct]
  simp only [hg, if_pos, if_true]
  cases detected <;> simp [apply_detection]

/-! ### C4 -/

/-- **C4, counterexample.** Default config; a connected `AVAILABLE` bay is
disconnected at time 0, reconnects at time 1 and is updated (no detection)
at time 11, i.e. exactly `connectionGracePeriod` after
`lastConnectionTime`: the status does return to `AVAILABLE`, but the
counters are not both 0 — the recovering call's own detection step has
already advanced `consecutiveNonDetections` to 1. -/
theorem C4_counterexample :
    (Bay.update_bay_status {}
      (Bay.update_bay_status {}
        (Bay.update_bay_status {} { initBay 0 with is_connected := true }
          0 false false none 0)
        1 false true none 0)
      11 false true none 0).status = .AVAILABLE ∧
    ¬ ((Bay.update_bay_status {}
      (Bay.update_bay_status {}
        (Bay.update_bay_status {} { initBay 0 with is_connected := true }
          0 false false none 0)
        1 false true none 0)
      11 false true none 0).consecutive_detections = 0 ∧
      (Bay.update_bay_status {}
      (Bay.update_bay_status {}
        (Bay.update_bay_status {} { initBay 0 with is_connected := true }
          0 false false none 0)
        1 false true none 0)
      11 false true none 0).consecutive_non_detections = 0) := by
  constructor
  · decide
  · decide

/-- **C4, amended.** Recovery scenario: (1) an update with
`isConnected = false` puts any bay into `CONNECTION_ERROR` within that one
call; (2) after a false→true reconnection, connected updates strictly
within `connectionGracePeriod` of `lastConnectionTime` keep the status
`CONNECTION_ERROR`; (3) the first connected, frame-fresh update at or
after the grace period returns the status to `AVAILABLE` with the pending
flag cleared — the counters are reset to zero by the recovery and then
advanced once by that same call's detection step, so the counter matching
the call's `detected` flag is 1 and the other is 0 (they are not both 0). -/
theorem C4_amended (cfg : StatusConfig) :
    (∀ (b : Bay) (now : Int) (d : Bool) (lft : Option Int) (conf : Rat),
      (Bay.update_bay_status cfg b now d false lft conf).status
        = .CONNECTION_ERROR) ∧
    (∀ (b : Bay) (now : Int) (d : Bool) (lft : Option Int) (conf : Rat) (l : Int),
      b.status = .CONNECTION_ERROR →
      b.connection_recovery_pending = true →
      b.is_connected = true →
      b.last_connection_time = some l →
      now - l < cfg.connection_grace_period →
      (Bay.update_bay_status cfg b now d true lft conf).status
        = .CONNECTION_ERROR) ∧
    (∀ (b : Bay) (now : Int) (d : Bool) (lft : Option Int) (conf : Rat) (l : Int),
      b.status = .CONNECTION_ERROR →
      b.is_connected = true →
      b.last_connection_time = some l →
      cfg.connection_grace_period ≤ now - l →
      no_frame_timeout cfg (effective_frame_time b lft) now →
      (Bay.update_bay_status cfg b now d true lft conf).status = .AVAILABLE ∧
      (Bay.update_bay_status cfg b now d true lft
        conf).connection_recovery_pending = false ∧
      (Bay.update_bay_status cfg b now d true lft conf).consecutive_detections
        = (if d then 1 else 0) ∧
      (Bay.update_bay_status cfg b now d true lft conf).consecutive_non_detections
        = (if d then 0 else 1)) := by
  refine ⟨?_, ?_, ?_⟩
  · intro b now d lft conf
    unfold Bay.update_bay_status
    simp [mark_connection_error_status]
  · intro b now d lft conf l h1 h2 h3 h4 h5
    exact update_in_grace_keeps_ce cfg b now d lft conf l h1 h2 h3 h4 h5
  · intro b now d lft conf l h1 h2 h3 h4 h5
    exact update_recovers cfg b now d lft conf l h1 h2 h3 h4 h5

/-- A bay with no recorded frame time trivially has no frame timeout when
the call provides none either. -/
theorem no_frame_timeout_none (cfg : StatusConfig) (b : Bay) (now : Int)
    (h : b.last_frame_time = none) :
    no_frame_timeout cfg (effective_frame_time b none) now := by
  intro t ht
  unfold effective_frame_time at ht
  rw [h] at ht
  cases ht

/-- Witness for C4 (amended), default config: disconnect at time 0,
reconnect at time 1, an in-grace update at time 5, and the recovering
(non-detected) update at time 11. -/
theorem C4_witness :
    (Bay.update_bay_status {} { initBay 0 with is_connected := true }
      0 false false none 0).status = .CONNECTION_ERROR ∧
    (Bay.update_bay_status {}
      (Bay.update_bay_status {}
        (Bay.update_bay_status {} { initBay 0 with is_connected := true }
          0 false false none 0) 1 false true none 0)
      5 true true none 0).status = .CONNECTION_ERROR ∧
    ((Bay.update_bay_status {}
        (Bay.update_bay_status {}
          (Bay.update_bay_status {} { initBay 0 with is_connected := true }
            0 false false none 0) 1 false true none 0)
        11 false true none 0).status = .AVAILABLE ∧
      (Bay.update_bay_status {}
        (Bay.update_bay_status {}
          (Bay.update_bay_status {} { initBay 0 with is_connected := true }
            0 false false none 0) 1 false true none 0)
        11 false true none 0).connection_recovery_pending = false ∧
      (Bay.update_bay_status {}
        (Bay.update_bay_status {}
          (Bay.update_bay_status {} { initBay 0 with is_connected := true }
            0 false false none 0) 1 false true none 0)
        11 false true none 0).consecutive_detections = (if false then 1 else 0) ∧
      (Bay.update_bay_status {}
        (Bay.update_bay_status {}
          (Bay.update_bay_status {} { initBay 0 with is_connected := true }
            0 false false none 0) 1 false true none 0)
        11 false true none 0).consecutive_non_detections
          = (if false then 0 else 1)) := by
  obtain ⟨part1, part2, part3⟩ := C4_amended {}
  refine ⟨part1 { initBay 0 with is_connected := true } 0 false none 0, ?_, ?_⟩
  · exact part2 _ 5 true none 0 1 (by decide) (by decide) (by decide) (by decide)
      (by decide)
  · exact part3 _ 11 false none 0 1 (by decide) (by decide) (by decide)
      (by decide) (no_frame_timeout_none {} _ 11 (by decide))

/-! ### C9 -/

/-- **C9.** For a bay id not present in the tracker's registry, both the
update operation and the out-of-service operation return with the tracker
completely unchanged (every existing bay included) — the rejection is a
logged early return, not an exception. -/
theorem C9_invalid_bay_rejected (t : BayTracker) (bay_id : Nat) (now : Int)
    (vehicle_detected is_connected : Bool) (last_frame_time : Option Int)
    (detection_confidence : Rat) (out_of_service : Bool)
    (h : t.bays bay_id = none) :
    BayTracker.update_bay_status t bay_id now vehicle_detected is_connected
      last_frame_time detection_confidence = t ∧
    BayTracker.set_bay_out_of_service t bay_id now out_of_service = t := by
  unfold BayTracker.update_bay_status BayTracker.set_bay_out_of_service
  rw [h]
  exact ⟨rfl, rfl⟩

/-- Witness for C9: the tracker as initialised with the default 4 bays has
no bay 5; updating or disabling bay 5 is a no-op. -/
theorem C9_witness :
    BayTracker.update_bay_status (BayTracker.init {} 4 0) 5 1 true true none 0
      = BayTracker.init {} 4 0 ∧
    BayTracker.set_bay_out_of_service (BayTracker.init {} 4 0) 5 1 true
      = BayTracker.init {} 4 0 :=
  C9_invalid_bay_rejected (BayTracker.init {} 4 0) 5 1 true true none 0 true
    (by decide)

/-! ### C6 -/

/-- **C6.** For every value of the reconnect attempt counter (and any
jitter seed `r = time.time() % 1 ∈ [0,1)`), the computed reconnection
delay equals `min(baseInterval · 2^min(attempts,6), maxInterval)` adjusted
by a jitter of magnitude at most 25% of that value, and is never below 1
second. -/
theorem C6_backoff_formula (s : SimpleRTSPStreamProcessor) (r : Rat)
    (hb : 0 ≤ s.base_reconnect_interval) (hm : 0 ≤ s.max_reconnect_interval)
    (h0 : 0 ≤ r) (h1 : r < 1) :
    (∃ j : Rat,
      |j| ≤ min (s.base_reconnect_interval * 2 ^ min s.reconnect_attempts 6)
          s.max_reconnect_interval * (1 / 4) ∧
      calculate_backoff_delay s r =
        max 1 (min (s.base_reconnect_interval * 2 ^ min s.reconnect_attempts 6)
          s.max_reconnect_interval + j)) ∧
    1 ≤ calculate_backoff_delay s r := by
  unfold calculate_backoff_delay
  set d := min (s.base_reconnect_interval * 2 ^ min s.reconnect_attempts 6)
    s.max_reconnect_interval with hd_def
  have hd : 0 ≤ d := le_min (mul_nonneg hb (by positivity)) hm
  have hd4 : 0 ≤ d * (1 / 4) := by
    apply mul_nonneg hd
    norm_num
  refine ⟨⟨d * (1 / 4) * (r - 1 / 2), ?_, rfl⟩, le_max_left _ _⟩
  have habs : |r - 1 / 2| ≤ 1 := by
    rw [abs_le]
    constructor <;> linarith
  calc |d * (1 / 4) * (r - 1 / 2)|
      = |d * (1 / 4)| * |r - 1 / 2| := abs_mul _ _
    _ = d * (1 / 4) * |r - 1 / 2| := by rw [abs_of_nonneg hd4]
    _ ≤ d * (1 / 4) * 1 := mul_le_mul_of_nonneg_left habs hd4
    _ = d * (1 / 4) := mul_one _

/-- Witness for C6 at the configuration defaults (base 2s, max 60s),
attempt counter 0, jitter seed 0. -/
theorem C6_witness :
    (∃ j : Rat,
      |j| ≤ min (initProcessor.base_reconnect_interval *
          2 ^ min initProcessor.reconnect_attempts 6)
          initProcessor.max_reconnect_interval * (1 / 4) ∧
      calculate_backoff_delay initProcessor 0 =
        max 1 (min (initProcessor.base_reconnect_interval *
          2 ^ min initProcessor.reconnect_attempts 6)
          initProcessor.max_reconnect_interval + j)) ∧
    1 ≤ calculate_backoff_delay initProcessor 0 :=
  C6_backoff_formula initProcessor 0 (by norm_num [initProcessor])
    (by norm_num [initProcessor]) le_rfl (by norm_num)


theorem connect_preserves_base (s : SimpleRTSPStreamProcessor)
    (res : ConnectResult) (now : Int) :
    (connect s res now).1.base_reconnect_interval = s.base_reconnect_interval := by
  unfold connect
  cases res
  · simp
  · simp only
    split <;> simp

theorem connect_preserves_max (s : SimpleRTSPStreamProcessor)
    (res : ConnectResult) (now : Int) :
    (connect s res now).1.max_reconnect_interval = s.max_reconnect_interval := by
  unfold connect
  cases res
  · simp
  · simp only
    split <;> simp

theorem reconnect_preserves_intervals (s : SimpleRTSPStreamProcessor)
    (res : ConnectResult) (now : Int) :
    (reconnect s res now).1.base_reconnect_interval = s.base_reconnect_interval ∧
    (reconnect s res now).1.max_reconnect_interval = s.max_reconnect_interval := by
  unfold reconnect reconnect_attempt reconnect_finish disconnect
  split
  · simp
  · split <;> split <;>
      simp [connect_preserves_base, connect_preserves_max]

theorem reconnect_finish_success (c : SimpleRTSPStreamProcessor × Bool)
    (h : (reconnect_finish c).2 = true) :
    (reconnect_finish c).1.reconnect_attempts = 0 := by
  unfold reconnect_finish at h ⊢
  by_cases hc : c.2 = true
  · rw [if_pos hc]
  · rw [if_neg hc] at h
    exact absurd h hc

theorem reconnect_success_resets (s : SimpleRTSPStreamProcessor)
    (res : ConnectResult) (now : Int)
    (hsucc : (reconnect s res now).2 = true) :
    (reconnect s res now).1.reconnect_attempts = 0 := by
  unfold reconnect reconnect_attempt at hsucc ⊢
  by_cases h1 : s.max_reconnect_attempts < s.reconnect_attempts + 1
  · rw [if_pos h1] at hsucc
    simp at hsucc
  · rw [if_neg h1] at hsucc ⊢
    exact reconnect_finish_success _ hsucc

theorem C7_backoff_monotone_reset :
    (∀ (s : SimpleRTSPStreamProcessor) (r : Rat) (a b : Nat),
      0 ≤ s.base_reconnect_interval → 0 ≤ r → a ≤ b →
      calculate_backoff_delay { s with reconnect_attempts := a } r ≤
        calculate_backoff_delay { s with reconnect_attempts := b } r) ∧
    (∀ (s : SimpleRTSPStreamProcessor) (res : ConnectResult) (now : Int),
      (reconnect s res now).2 = true →
      (reconnect s res now).1.reconnect_attempts = 0 ∧
      (s.base_reconnect_interval ≤ s.max_reconnect_interval →
        min ((reconnect s res now).1.base_reconnect_interval *
            2 ^ min (reconnect s res now).1.reconnect_attempts 6)
          (reconnect s res now).1.max_reconnect_interval
          = s.base_reconnect_interval)) := by
  constructor
  · intro s r a b hb h0 hab
    unfold calculate_backoff_delay
    simp only
    set da := min (s.base_reconnect_interval * 2 ^ min a 6)
      s.max_reconnect_interval with hda
    set db := min (s.base_reconnect_interval * 2 ^ min b 6)
      s.max_reconnect_interval with hdb
    have hd : da ≤ db := by
      apply min_le_min _ le_rfl
      apply mul_le_mul_of_nonneg_left _ hb
      apply pow_le_pow_right (by norm_num)
      omega
    have hc : (0 : Rat) ≤ 1 + 1 / 4 * (r - 1 / 2) := by linarith
    apply max_le_max le_rfl
    nlinarith [mul_nonneg (sub_nonneg.mpr hd) hc]
  · intro s res now hsucc
    have hattempts := reconnect_success_resets s res now hsucc
    have hints := reconnect_preserves_intervals s res now
    refine ⟨hattempts, fun hbm => ?_⟩
    rw [hattempts, hints.1, hints.2]
    simp [min_eq_left hbm]

/-- Witness for C7: attempts 3 vs 5 on the default config with jitter seed
0, and a successful reconnect from the freshly initialised processor at
time 0. -/
theorem C7_witness :
    calculate_backoff_delay { initProcessor with reconnect_attempts := 3 } 0 ≤
      calculate_backoff_delay { initProcessor with reconnect_attempts := 5 } 0 ∧
    ((reconnect initProcessor .success 0).1.reconnect_attempts = 0 ∧
      (initProcessor.base_reconnect_interval ≤
          initProcessor.max_reconnect_interval →
        min ((reconnect initProcessor .success 0).1.base_reconnect_interval *
            2 ^ min (reconnect initProcessor .success 0).1.reconnect_attempts 6)
          (reconnect initProcessor .success 0).1.max_reconnect_interval
          = initProcessor.base_reconnect_interval)) :=
  ⟨(C7_backoff_monotone_reset).1 initProcessor 0 3 5
      (by norm_num [initProcessor]) le_rfl (by norm_num),
    (C7_backoff_monotone_reset).2 initProcessor .success 0 (by decide)⟩

/-- One step down the ladder never increases the rank, and strictly
decreases it above `low`. -/
theorem qualityRank_degrade_le (q : QualityLevel) :
    qualityRank (degrade_quality q) ≤ qualityRank q := by
  cases q <;> simp [degrade_quality, qualityRank]

/-- `connect` never increases the quality rank. -/
theorem connect_rank_le (s : SimpleRTSPStreamProcessor) (res : ConnectResult)
    (now : Int) :
    qualityRank (connect s res now).1.quality_level ≤
      qualityRank s.quality_level := by
  unfold connect
  cases res
  · simp
  · simp only
    split
    · simpa using qualityRank_degrade_le s.quality_level
    · simp

/-- `reconnect` never increases the quality rank. -/
theorem reconnect_rank_le (s : SimpleRTSPStreamProcessor) (res : ConnectResult)
    (now : Int) :
    qualityRank (reconnect s res now).1.quality_level ≤
      qualityRank s.quality_level := by
  unfold reconnect reconnect_attempt reconnect_finish disconnect
  split
  · simp
  · split
    · split
      · simp only
        exact connect_rank_le _ res now
      · exact connect_rank_le _ res now
    · split
      · simp only
        exact connect_rank_le _ res now
      · exact connect_rank_le _ res now

/-- `get_frame` never touches the quality level. -/
theorem get_frame_rank_le (s : SimpleRTSPStreamProcessor) (ok : Bool)
    (now : Int) :
    qualityRank (get_frame s ok now).1.quality_level ≤
      qualityRank s.quality_level := by
  unfold get_frame get_frame_success update_performance_metrics
  split
  · simp
  · split
    · simp
    · simp only
      split
      · split
        · split <;> simp
        · simp
      · simp

/-- No single lifecycle operation increases the quality rank. -/
theorem runOp_rank_le (s : SimpleRTSPStreamProcessor) (op : StreamOp) :
    qualityRank (runOp s op).quality_level ≤ qualityRank s.quality_level := by
  cases op with
  | connectOp res now => exact connect_rank_le s res now
  | reconnectOp res now => exact reconnect_rank_le s res now
  | getFrameOp ok now => exact get_frame_rank_le s ok now

/-- No sequence of lifecycle operations increases the quality rank. -/
theorem runOps_rank_le (ops : List StreamOp) :
    ∀ s : SimpleRTSPStreamProcessor,
      qualityRank (runOps s ops).quality_level ≤ qualityRank s.quality_level := by
  induction ops with
  | nil => intro s; exact le_rfl
  | cons op ops ih =>
    intro s
    exact le_trans (ih (runOp s op)) (runOp_rank_le s op)

/-! ### C8 -/

/-- **C8.** Quality ladder: a connect failure increments
`consecutive_failures`, and exactly when the incremented counter reaches 3
the quality is degraded one step (`high→medium→low`, staying at `low`) and
the counter is reset to 0; and across any sequence of connect, reconnect
and frame-read operations the quality level never increases (its rank
`high=2, medium=1, low=0` never grows). -/
theorem C8_quality_ladder :
    (∀ (s : SimpleRTSPStreamProcessor) (msg : String) (now : Int),
      (connect s (.failure msg) now).1.consecutive_failures
          = (if 3 ≤ s.consecutive_failures + 1 then 0
             else s.consecutive_failures + 1) ∧
      (connect s (.failure msg) now).1.quality_level
          = (if 3 ≤ s.consecutive_failures + 1 then
              degrade_quality s.quality_level
             else s.quality_level)) ∧
    (degrade_quality .high = .medium ∧ degrade_quality .medium = .low ∧
      degrade_quality .low = .low) ∧
    (∀ (s : SimpleRTSPStreamProcessor) (ops : List StreamOp),
      qualityRank (runOps s ops).quality_level ≤ qualityRank s.quality_level) := by
  refine ⟨?_, ⟨rfl, rfl, rfl⟩, fun s ops => runOps_rank_le ops s⟩
  intro s msg now
  unfold connect
  simp only
  split
  next h => simp [if_pos h]
  next h => simp [if_neg h]
